import Mathlib

/-!
Verification of the real-time biometric signal-estimation pipeline of
src/src/components/RealBiometricCapture.tsx (processAudioSignal,
generateEEGBands / calculateBandPower, estimateEmotion).

Modelling choices, shared by every definition below:

 - An audio frame (JS Float32Array) is a `List ℝ`; float rounding is
   idealised away, but the JS special value NaN is kept, because the code
   can divide zero by zero.  A JS number is `JsNum := Option ℝ`, where
   `none` models NaN and `some x` a finite value.
 - JS division `x / y` with `y = 0` yields NaN when `x = 0` and an infinity
   otherwise.  In the functions modelled here every division by zero has a
   provably zero numerator (the numerator is a sum over an empty index
   window), so `jdiv` maps every zero-divisor case to `none`; infinities
   never arise and are not modelled.
 - `Math.sqrt` of a negative number is NaN; comparisons with NaN are false;
   `Math.min`, `Math.max`, `Math.round` and arithmetic propagate NaN.
   `Math.round x` is `⌊x + 1/2⌋` (JS rounds half toward positive infinity).
 - JS array reads `a[i]` occur in the code only at indices that are in
   bounds; they are modelled by `List.getD · · 0`.
 - The device sample rate is read from a mutable ref,
   `audioContextRef.current?.sampleRate || 44100` (the context is created
   with sampleRate 44100); the estimators take it as an explicit argument,
   and the ref read is modelled separately for the purity claim.
-/

open scoped Classical

noncomputable section

namespace BioPipe

/-- A JS number: `some x` is a finite value, `none` is NaN. -/
abbrev JsNum := Option ℝ

/-- JS addition, NaN-propagating. -/
def jadd : JsNum → JsNum → JsNum
  | some x, some y => some (x + y)
  | _, _ => none

/-- JS subtraction, NaN-propagating. -/
def jsub : JsNum → JsNum → JsNum
  | some x, some y => some (x - y)
  | _, _ => none

/-- JS multiplication, NaN-propagating. -/
def jmul : JsNum → JsNum → JsNum
  | some x, some y => some (x * y)
  | _, _ => none

/-- JS division.  Division by zero is mapped to NaN: in the embedded code
every division by zero has a zero numerator (0/0 is NaN in JS), so the
infinite results of nonzero/0 never arise. -/
def jdiv : JsNum → JsNum → JsNum
  | some x, some y => if y = 0 then none else some (x / y)
  | _, _ => none

/-- JS Math.sqrt: NaN on negative input, NaN-propagating. -/
def jsqrt : JsNum → JsNum
  | some x => if x < 0 then none else some (Real.sqrt x)
  | none => none

/-- JS Math.tanh, NaN-propagating. -/
def jtanh : JsNum → JsNum
  | some x => some (Real.tanh x)
  | none => none

/-- JS Math.min, NaN-propagating. -/
def jmin : JsNum → JsNum → JsNum
  | some x, some y => some (min x y)
  | _, _ => none

/-- JS Math.max, NaN-propagating. -/
def jmax : JsNum → JsNum → JsNum
  | some x, some y => some (max x y)
  | _, _ => none

/-- JS Math.round (round half toward positive infinity), NaN-propagating. -/
def jround : JsNum → JsNum
  | some x => some ((⌊x + 1 / 2⌋ : ℤ) : ℝ)
  | none => none

/-- JS strict less-than as used in conditions: any comparison with NaN is
false. -/
def jlt : JsNum → JsNum → Bool
  | some x, some y => decide (x < y)
  | _, _ => false

/-- JS strict greater-than: `a > b` is `jlt b a`. -/
def jgt (a b : JsNum) : Bool := jlt b a

/-- Read of `data[i]` at an in-bounds index (lines 56, 64, 110, 139, 153). -/
def sampleAt (data : List ℝ) (i : ℕ) : ℝ := data.getD i 0

/-- Sum of squared samples: the accumulation loop of lines 54-57 and the
reduce of line 137 (`totalEnergy`, and the numerator of the emotion rms). -/
def sumSq (data : List ℝ) : ℝ := (data.map fun x => x * x).sum

/-- `rmsEnergy` of line 58 and `rms` of line 137:
`Math.sqrt(totalEnergy / audioData.length)` (NaN when the frame is empty,
because JS computes 0/0). -/
def jrms (data : List ℝ) : JsNum :=
  jsqrt (jdiv (some (sumSq data)) (some (data.length : ℝ)))

/-- `threshold = rmsEnergy * 1.5` (line 62). -/
def peakThreshold (data : List ℝ) : JsNum := jmul (jrms data) (some 1.5)

/-- The peak condition of line 64:
`audioData[i] > threshold && audioData[i] > audioData[i-1] && audioData[i] > audioData[i+1]`. -/
def isPeak (data : List ℝ) (i : ℕ) : Bool :=
  jgt (some (sampleAt data i)) (peakThreshold data) &&
    jgt (some (sampleAt data i)) (some (sampleAt data (i - 1))) &&
      jgt (some (sampleAt data i)) (some (sampleAt data (i + 1)))

/-- The peak indices collected by the loop of lines 61-67: `i` runs from 1
while `i < audioData.length - 1`, pushing indices in increasing order. -/
def peaksOf (data : List ℝ) : List ℕ :=
  (List.range' 1 (data.length - 2)).filter (isPeak data)

/-- `avgInterval = (peaks[peaks.length-1] - peaks[0]) / (peaks.length - 1)`
(line 72), as a real number. -/
def avgIntervalOf (data : List ℝ) : ℝ :=
  (((peaksOf data).getD ((peaksOf data).length - 1) 0 : ℝ) -
      ((peaksOf data).getD 0 0 : ℝ)) / (((peaksOf data).length : ℝ) - 1)

/-- Heart-rate half of `processAudioSignal` (lines 70-75, 94): default 60,
else `(sampleRate / avgInterval) * 60` clamped by
`Math.max(60, Math.min(120, bpm))`, then `Math.round`. -/
def heartRateOf (sampleRate : ℝ) (data : List ℝ) : JsNum :=
  jround (if 1 < (peaksOf data).length then
    jmax (some 60) (jmin (some 120)
      (jmul (jdiv (some sampleRate) (some (avgIntervalOf data))) (some 60)))
  else some 60)

/-- `breathingIntervals` (lines 81-84): `peaks[i] - peaks[i-2]` for
`i = 2, 4, 6, ...` with `i < peaks.length`; there are `(len - 1) / 2` such
indices. -/
def breathingDeltas (data : List ℝ) : List ℝ :=
  (List.range' 2 (((peaksOf data).length - 1) / 2) 2).map fun i =>
    ((peaksOf data).getD i 0 : ℝ) - ((peaksOf data).getD (i - 2) 0 : ℝ)

/-- `avgBreathingInterval` (line 86). -/
def avgBreathingIntervalOf (data : List ℝ) : ℝ :=
  (breathingDeltas data).sum / ((breathingDeltas data).length : ℝ)

/-- Breathing-rate half of `processAudioSignal` (lines 78-90, 95): default
12, else `(sampleRate / avgBreathingInterval) * 30` clamped by
`Math.max(8, Math.min(20, bpm))`, then `Math.round`. -/
def breathingRateOf (sampleRate : ℝ) (data : List ℝ) : JsNum :=
  jround (if 2 < (peaksOf data).length then
    (if 0 < (breathingDeltas data).length then
      jmax (some 8) (jmin (some 20)
        (jmul (jdiv (some sampleRate) (some (avgBreathingIntervalOf data))) (some 30)))
    else some 12)
  else some 12)

/-- `processAudioSignal` (lines 47-97): the pair of rounded vital signs. -/
def processAudioSignal (sampleRate : ℝ) (data : List ℝ) : JsNum × JsNum :=
  (heartRateOf sampleRate data, breathingRateOf sampleRate data)

/-- `windowSize = Math.floor(data.length * (maxFreq - minFreq) / (sampleRate / 2))`
(line 106). -/
def bandWindowSize (sampleRate : ℝ) (n : ℕ) (minFreq maxFreq : ℝ) : ℤ :=
  ⌊(n : ℝ) * (maxFreq - minFreq) / (sampleRate / 2)⌋

/-- `startIdx = Math.floor(data.length * minFreq / (sampleRate / 2))`
(line 107).  Nonnegative for the configured rate 44100 and the five bands. -/
def bandStartIdx (sampleRate : ℝ) (n : ℕ) (minFreq : ℝ) : ℤ :=
  ⌊(n : ℝ) * minFreq / (sampleRate / 2)⌋

/-- The loop of lines 108-111: `power` is the sum of squared samples for
`i` from `startIdx` while `i < Math.min(startIdx + windowSize, data.length)`. -/
def bandPowerSum (sampleRate : ℝ) (data : List ℝ) (minFreq maxFreq : ℝ) : ℝ :=
  ((List.range' (bandStartIdx sampleRate data.length minFreq).toNat
      ((min (bandStartIdx sampleRate data.length minFreq +
          bandWindowSize sampleRate data.length minFreq maxFreq)
        (data.length : ℤ)).toNat -
        (bandStartIdx sampleRate data.length minFreq).toNat)).map fun i =>
    sampleAt data i * sampleAt data i).sum

/-- `calculateBandPower` (lines 105-113): `power / windowSize`, with no
guard against `windowSize = 0` (in which case the sum is empty and JS
computes 0/0 = NaN). -/
def calculateBandPower (sampleRate : ℝ) (data : List ℝ) (minFreq maxFreq : ℝ) : JsNum :=
  jdiv (some (bandPowerSum sampleRate data minFreq maxFreq))
    (some ((bandWindowSize sampleRate data.length minFreq maxFreq : ℤ) : ℝ))

/-- The five-band output record of `generateEEGBands`. -/
structure EEGBands where
  delta : JsNum
  theta : JsNum
  alpha : JsNum
  beta : JsNum
  gamma : JsNum

/-- The per-band postprocessing of line 128: `Math.min(1, power * 1000)`. -/
def bandScaled (p : JsNum) : JsNum := jmin (some 1) (jmul p (some 1000))

/-- `generateEEGBands` (lines 100-132) with the band bounds of lines
116-122. -/
def generateEEGBands (sampleRate : ℝ) (data : List ℝ) : EEGBands :=
  { delta := bandScaled (calculateBandPower sampleRate data 0.5 4)
    theta := bandScaled (calculateBandPower sampleRate data 4 8)
    alpha := bandScaled (calculateBandPower sampleRate data 8 13)
    beta := bandScaled (calculateBandPower sampleRate data 13 30)
    gamma := bandScaled (calculateBandPower sampleRate data 30 100) }

/-- The zero-crossing count of lines 138-141: indices `i > 0` with
`(audioData[i] >= 0) !== (audioData[i-1] >= 0)`. -/
def zcCount (data : List ℝ) : ℕ :=
  ((List.range' 1 (data.length - 1)).filter fun i =>
    decide (0 ≤ sampleAt data i) != decide (0 ≤ sampleAt data (i - 1))).length

/-- `zeroCrossingRate` (line 141): the count divided by the frame length
(NaN on the empty frame, JS 0/0). -/
def jzcr (data : List ℝ) : JsNum :=
  jdiv (some (zcCount data : ℝ)) (some (data.length : ℝ))

/-- `magnitudeSum` of the centroid loop (lines 150, 153, 155). -/
def magSum (data : List ℝ) : ℝ := (data.map fun x => |x|).sum

/-- `weightedSum` of the centroid loop (lines 149-154):
`freq = (i / length) * (sampleRate / 2)`, weighted by `Math.abs(data[i])`. -/
def weightedFreqSum (sampleRate : ℝ) (data : List ℝ) : ℝ :=
  ((List.range data.length).map fun (i : ℕ) =>
    (i : ℝ) / (data.length : ℝ) * (sampleRate / 2) * |sampleAt data i|).sum

/-- The spectral-centroid block of lines 146-158: 1000 by default, computed
only when the frame is nonempty, and 1000 again when `magnitudeSum` is not
positive. -/
def centroidOf (sampleRate : ℝ) (data : List ℝ) : ℝ :=
  if 0 < data.length then
    (if 0 < magSum data then weightedFreqSum sampleRate data / magSum data else 1000)
  else 1000

/-- The VAD output record of `estimateEmotion`. -/
structure Emotion where
  valence : JsNum
  arousal : JsNum
  dominance : JsNum

/-- The output clamp of lines 171-173: `Math.max(lo, Math.min(hi, v))`. -/
def jclamp (lo hi : ℝ) (v : JsNum) : JsNum := jmax (some lo) (jmin (some hi) v)

/-- `estimateEmotion` (lines 135-175): tanh maps of rms, zero-crossing rate
and centroid (lines 162-168), clamped to the VAD ranges (lines 170-174). -/
def estimateEmotion (sampleRate : ℝ) (data : List ℝ) : Emotion :=
  { valence := jclamp (-1) 1 (jtanh (jadd
      (some ((centroidOf sampleRate data - 1000) / 500))
      (jmul (jsub (jzcr data) (some 0.1)) (some 10))))
    arousal := jclamp 0 1 (jtanh (jadd
      (jmul (jrms data) (some 100))
      (some (centroidOf sampleRate data / 2000))))
    dominance := jclamp 0 1 (jtanh (jadd
      (jmul (jrms data) (some 50))
      (jsub (some 1) (jzcr data)))) }

/-- The all-zero 1024-sample frame of spec Scenario 1. -/
def zeroFrame : List ℝ := List.replicate 1024 0

/-- Spec-side RMS for the peak-detection claim: the root of the mean squared
sample (real arithmetic; on the empty frame no interior index exists, so the
value is never compared). -/
def specRms (data : List ℝ) : ℝ := Real.sqrt (sumSq data / (data.length : ℝ))

/-- Spec-side peak predicate, from the claim text: an interior index whose
sample strictly exceeds 1.5 × RMS and strictly exceeds both neighbors. -/
def specIsPeak (data : List ℝ) (i : ℕ) : Prop :=
  0 < i ∧ i + 1 < data.length ∧ 1.5 * specRms data < sampleAt data i ∧
    sampleAt data (i - 1) < sampleAt data i ∧ sampleAt data (i + 1) < sampleAt data i

/-- Spec-side peak list: all frame indices satisfying `specIsPeak`, in
increasing order. -/
def specPeaks (data : List ℝ) : List ℕ :=
  (List.range data.length).filter fun i => decide (specIsPeak data i)

/-- Spec-side clamp-then-round: clamp to the interval, then round to an
integer (half toward positive infinity, as the code rounds). -/
def specClampRound (lo hi x : ℝ) : ℝ := ((⌊max lo (min hi x) + 1 / 2⌋ : ℤ) : ℝ)

/-- Spec-side heart rate, from the claim text: default 60 below 2 peaks,
else `(sampleRate / ((lastPeak - firstPeak) / (peakCount - 1))) * 60`
clamped to the range 60-120 and rounded. -/
def specHeartRate (sampleRate : ℝ) (data : List ℝ) : ℝ :=
  if (specPeaks data).length < 2 then 60
  else specClampRound 60 120 (sampleRate /
    ((((specPeaks data).getD ((specPeaks data).length - 1) 0 : ℝ) -
        ((specPeaks data).getD 0 0 : ℝ)) / (((specPeaks data).length : ℝ) - 1)) * 60)

/-- Spec-side every-other-peak deltas: `peak[i] - peak[i-2]` for
`i = 2, 4, 6, ...` below the peak count. -/
def specBreathingDeltas (data : List ℝ) : List ℝ :=
  (List.range' 2 (((specPeaks data).length - 1) / 2) 2).map fun i =>
    ((specPeaks data).getD i 0 : ℝ) - ((specPeaks data).getD (i - 2) 0 : ℝ)

/-- Spec-side breathing rate, from the claim text: default 12 below 3 peaks,
else `(sampleRate / meanDelta) * 30` clamped to the range 8-20 and rounded. -/
def specBreathingRate (sampleRate : ℝ) (data : List ℝ) : ℝ :=
  if (specPeaks data).length < 3 then 12
  else specClampRound 8 20 (sampleRate /
    ((specBreathingDeltas data).sum / ((specBreathingDeltas data).length : ℝ)) * 30)

/-- Spec-side centroid, from the claim text: the magnitude-weighted mean of
the synthetic frequency axis, defaulting to 1000 when the total magnitude is
zero. -/
def specCentroid (sampleRate : ℝ) (data : List ℝ) : ℝ :=
  if magSum data = 0 then 1000 else weightedFreqSum sampleRate data / magSum data

/-- Spec-side affect estimator, from the claim text: the three clamped tanh
formulas over rms, zero-crossing rate and the spec centroid. -/
def specEmotion (sampleRate : ℝ) (data : List ℝ) : Emotion :=
  { valence := jclamp (-1) 1 (jtanh (jadd
      (some ((specCentroid sampleRate data - 1000) / 500))
      (jmul (jsub (jzcr data) (some 0.1)) (some 10))))
    arousal := jclamp 0 1 (jtanh (jadd
      (jmul (jrms data) (some 100))
      (some (specCentroid sampleRate data / 2000))))
    dominance := jclamp 0 1 (jtanh (jadd
      (jmul (jrms data) (some 50))
      (jsub (some 1) (jzcr data)))) }

/-- The mutable environment the estimator closures read: the audio-context
ref with its device sample rate (line 49, 102, 144). -/
structure AudioRefs where
  ctxSampleRate : Option ℝ

/-- JS `a || b` on a possibly absent number: absent and zero fall back to
the default (the sample-rate property is a finite positive number when
present, so the NaN falsy case is not modelled). -/
def jsOrDefault (v : Option ℝ) (d : ℝ) : ℝ :=
  match v with
  | none => d
  | some x => if x = 0 then d else x

/-- `audioContextRef.current?.sampleRate || 44100` (lines 49, 102, 144). -/
def effSampleRate (r : AudioRefs) : ℝ := jsOrDefault r.ctxSampleRate 44100

/-- `processAudioSignal` as the source runs it: reads the ref, never writes
it. -/
def processAudioSignalR (r : AudioRefs) (data : List ℝ) : (JsNum × JsNum) × AudioRefs :=
  (processAudioSignal (effSampleRate r) data, r)

/-- `generateEEGBands` as the source runs it: reads the ref, never writes
it. -/
def generateEEGBandsR (r : AudioRefs) (data : List ℝ) : EEGBands × AudioRefs :=
  (generateEEGBands (effSampleRate r) data, r)

/-- `estimateEmotion` as the source runs it: reads the ref, never writes
it. -/
def estimateEmotionR (r : AudioRefs) (data : List ℝ) : Emotion × AudioRefs :=
  (estimateEmotion (effSampleRate r) data, r)

/-! Unfolding lemmas for the JS-number operations. -/

@[simp] theorem jadd_some (x y : ℝ) : jadd (some x) (some y) = some (x + y) := rfl

@[simp] theorem jadd_none_left (b : JsNum) : jadd none b = none := rfl

@[simp] theorem jadd_none_right (a : JsNum) : jadd a none = none := by cases a <;> rfl

@[simp] theorem jsub_some (x y : ℝ) : jsub (some x) (some y) = some (x - y) := rfl

@[simp] theorem jsub_none_left (b : JsNum) : jsub none b = none := rfl

@[simp] theorem jsub_none_right (a : JsNum) : jsub a none = none := by cases a <;> rfl

@[simp] theorem jmul_some (x y : ℝ) : jmul (some x) (some y) = some (x * y) := rfl

@[simp] theorem jmul_none_left (b : JsNum) : jmul none b = none := rfl

@[simp] theorem jmul_none_right (a : JsNum) : jmul a none = none := by cases a <;> rfl

theorem jdiv_some (x y : ℝ) :
    jdiv (some x) (some y) = if y = 0 then none else some (x / y) := rfl

theorem jdiv_some_of_ne {y : ℝ} (x : ℝ) (hy : y ≠ 0) :
    jdiv (some x) (some y) = some (x / y) := by
  rw [jdiv_some, if_neg hy]

@[simp] theorem jdiv_zero_divisor (x : ℝ) : jdiv (some x) (some 0) = none := by
  rw [jdiv_some, if_pos rfl]

@[simp] theorem jdiv_none_left (b : JsNum) : jdiv none b = none := rfl

@[simp] theorem jdiv_none_right (a : JsNum) : jdiv a none = none := by cases a <;> rfl

theorem jsqrt_some (x : ℝ) :
    jsqrt (some x) = if x < 0 then none else some (Real.sqrt x) := rfl

theorem jsqrt_some_of_nonneg {x : ℝ} (hx : 0 ≤ x) :
    jsqrt (some x) = some (Real.sqrt x) := by
  rw [jsqrt_some, if_neg (not_lt.2 hx)]

@[simp] theorem jsqrt_none : jsqrt none = none := rfl

@[simp] theorem jtanh_some (x : ℝ) : jtanh (some x) = some (Real.tanh x) := rfl

@[simp] theorem jtanh_none : jtanh none = none := rfl

@[simp] theorem jmin_some (x y : ℝ) : jmin (some x) (some y) = some (min x y) := rfl

@[simp] theorem jmin_none_left (b : JsNum) : jmin none b = none := rfl

@[simp] theorem jmin_none_right (a : JsNum) : jmin a none = none := by cases a <;> rfl

@[simp] theorem jmax_some (x y : ℝ) : jmax (some x) (some y) = some (max x y) := rfl

@[simp] theorem jmax_none_left (b : JsNum) : jmax none b = none := rfl

@[simp] theorem jmax_none_right (a : JsNum) : jmax a none = none := by cases a <;> rfl

@[simp] theorem jround_some (x : ℝ) : jround (some x) = some ((⌊x + 1 / 2⌋ : ℤ) : ℝ) := rfl

@[simp] theorem jround_none : jround none = none := rfl

@[simp] theorem jlt_some (x y : ℝ) : jlt (some x) (some y) = decide (x < y) := rfl

@[simp] theorem jlt_none_left (b : JsNum) : jlt none b = false := rfl

@[simp] theorem jlt_none_right (a : JsNum) : jlt a none = false := by cases a <;> rfl

@[simp] theorem jgt_some (x y : ℝ) : jgt (some x) (some y) = decide (y < x) := rfl

/-! Bounds for the real hyperbolic tangent, used to discharge the output
clamps. -/

theorem tanh_lt_one (x : ℝ) : Real.tanh x < 1 := by
  rw [Real.tanh_eq_sinh_div_cosh, div_lt_one (Real.cosh_pos x)]
  nlinarith [Real.cosh_sub_sinh x, Real.exp_pos (-x)]

theorem neg_one_lt_tanh (x : ℝ) : -1 < Real.tanh x := by
  rw [Real.tanh_eq_sinh_div_cosh, lt_div_iff₀ (Real.cosh_pos x)]
  nlinarith [Real.sinh_add_cosh x, Real.exp_pos x]

theorem tanh_pos {x : ℝ} (hx : 0 < x) : 0 < Real.tanh x := by
  rw [Real.tanh_eq_sinh_div_cosh]
  exact div_pos (Real.sinh_pos_iff.2 hx) (Real.cosh_pos x)

theorem tanh_one_gt : (0.7 : ℝ) < Real.tanh 1 := by
  rw [Real.tanh_eq_sinh_div_cosh, lt_div_iff₀ (Real.cosh_pos 1), Real.sinh_eq,
    Real.cosh_eq, Real.exp_neg]
  have he : 2.7182818283 < Real.exp 1 := Real.exp_one_gt_d9
  have hpos : 0 < Real.exp 1 := Real.exp_pos 1
  have hy : 0 < (Real.exp 1)⁻¹ := inv_pos.2 hpos
  have h1 : Real.exp 1 * (Real.exp 1)⁻¹ = 1 := mul_inv_cancel₀ (ne_of_gt hpos)
  nlinarith [he, hpos, hy, h1]

/-! Elementary facts about the frame statistics. -/

theorem sumSq_nonneg (data : List ℝ) : 0 ≤ sumSq data := by
  refine List.sum_nonneg ?_
  intro x hx
  rw [List.mem_map] at hx
  obtain ⟨y, -, rfl⟩ := hx
  exact mul_self_nonneg y

theorem magSum_nonneg (data : List ℝ) : 0 ≤ magSum data := by
  refine List.sum_nonneg ?_
  intro x hx
  rw [List.mem_map] at hx
  obtain ⟨y, -, rfl⟩ := hx
  exact abs_nonneg y

theorem sampleAt_replicate (n : ℕ) (c : ℝ) (i : ℕ) :
    sampleAt (List.replicate n c) i = if i < n then c else 0 := by
  unfold sampleAt
  rcases lt_or_le i n with h | h
  · rw [List.getD_eq_getElem _ _ (by simpa using h), List.getElem_replicate, if_pos h]
  · rw [List.getD_eq_default _ _ (by simpa using h), if_neg (not_lt.2 h)]

theorem sumSq_replicate_zero (n : ℕ) : sumSq (List.replicate n (0 : ℝ)) = 0 := by
  simp [sumSq, List.map_replicate, List.sum_replicate]

theorem magSum_replicate_zero (n : ℕ) : magSum (List.replicate n (0 : ℝ)) = 0 := by
  simp [magSum, List.map_replicate, List.sum_replicate]

/-- The JS clamp-and-round pipeline for the heart-rate range. -/
theorem round_clamp_60_120 (x : ℝ) :
    60 ≤ ((⌊max 60 (min 120 x) + 1 / 2⌋ : ℤ) : ℝ) ∧
      ((⌊max 60 (min 120 x) + 1 / 2⌋ : ℤ) : ℝ) ≤ 120 := by
  have h1 : (60 : ℝ) ≤ max 60 (min 120 x) := le_max_left _ _
  have h2 : max 60 (min 120 x) ≤ 120 := max_le (by norm_num) (min_le_left _ _)
  constructor
  · have h : (60 : ℤ) ≤ ⌊max 60 (min 120 x) + 1 / 2⌋ := Int.le_floor.2 (by push_cast; linarith)
    exact_mod_cast h
  · have h3 : ⌊max 60 (min 120 x) + 1 / 2⌋ < 121 := Int.floor_lt.2 (by push_cast; linarith)
    have h4 : ⌊max 60 (min 120 x) + 1 / 2⌋ ≤ 120 := by omega
    exact_mod_cast h4

/-- The JS clamp-and-round pipeline for the breathing-rate range. -/
theorem round_clamp_8_20 (x : ℝ) :
    8 ≤ ((⌊max 8 (min 20 x) + 1 / 2⌋ : ℤ) : ℝ) ∧
      ((⌊max 8 (min 20 x) + 1 / 2⌋ : ℤ) : ℝ) ≤ 20 := by
  have h1 : (8 : ℝ) ≤ max 8 (min 20 x) := le_max_left _ _
  have h2 : max 8 (min 20 x) ≤ 20 := max_le (by norm_num) (min_le_left _ _)
  constructor
  · have h : (8 : ℤ) ≤ ⌊max 8 (min 20 x) + 1 / 2⌋ := Int.le_floor.2 (by push_cast; linarith)
    exact_mod_cast h
  · have h3 : ⌊max 8 (min 20 x) + 1 / 2⌋ < 21 := Int.floor_lt.2 (by push_cast; linarith)
    have h4 : ⌊max 8 (min 20 x) + 1 / 2⌋ ≤ 20 := by omega
    exact_mod_cast h4

/-! Structure of the collected peak list: the loop walks the frame left to
right, so the indices are strictly increasing. -/

theorem peaksOf_pairwise (data : List ℝ) : (peaksOf data).Pairwise (· < ·) :=
  List.Pairwise.sublist (List.filter_sublist _) (List.pairwise_lt_range' _ _ _)

theorem mem_peaksOf {data : List ℝ} {i : ℕ} (h : i ∈ peaksOf data) :
    1 ≤ i ∧ i + 1 < data.length := by
  have hm := (List.mem_filter.1 h).1
  rw [List.mem_range'_1] at hm
  omega

theorem peaksOf_getD_lt {data : List ℝ} {i j : ℕ} (hij : i < j)
    (hj : j < (peaksOf data).length) :
    (peaksOf data).getD i 0 < (peaksOf data).getD j 0 := by
  have hp := peaksOf_pairwise data
  rw [List.pairwise_iff_getElem] at hp
  have hi : i < (peaksOf data).length := lt_trans hij hj
  rw [List.getD_eq_getElem _ _ hi, List.getD_eq_getElem _ _ hj]
  exact hp i j hi hj hij

theorem avgIntervalOf_pos {data : List ℝ} (h : 1 < (peaksOf data).length) :
    0 < avgIntervalOf data := by
  unfold avgIntervalOf
  have h0 : (peaksOf data).getD 0 0 < (peaksOf data).getD ((peaksOf data).length - 1) 0 :=
    peaksOf_getD_lt (by omega) (by omega)
  have h0r : ((peaksOf data).getD 0 0 : ℝ) <
      ((peaksOf data).getD ((peaksOf data).length - 1) 0 : ℝ) := by exact_mod_cast h0
  have h1 : (1 : ℝ) < ((peaksOf data).length : ℝ) := by exact_mod_cast h
  exact div_pos (by linarith) (by linarith)

theorem breathingDeltas_length (data : List ℝ) :
    (breathingDeltas data).length = ((peaksOf data).length - 1) / 2 := by
  simp [breathingDeltas]

theorem breathingDeltas_pos {data : List ℝ} (h : 2 < (peaksOf data).length) :
    ∀ x ∈ breathingDeltas data, 0 < x := by
  intro x hx
  unfold breathingDeltas at hx
  rw [List.mem_map] at hx
  obtain ⟨i, hi, rfl⟩ := hx
  rw [List.mem_range'] at hi
  obtain ⟨k, hk, rfl⟩ := hi
  have hlt : 2 + 2 * k < (peaksOf data).length := by omega
  have hmono : (peaksOf data).getD (2 + 2 * k - 2) 0 < (peaksOf data).getD (2 + 2 * k) 0 :=
    peaksOf_getD_lt (by omega) hlt
  have hr : ((peaksOf data).getD (2 + 2 * k - 2) 0 : ℝ) <
      ((peaksOf data).getD (2 + 2 * k) 0 : ℝ) := by exact_mod_cast hmono
  linarith

theorem breathingDeltas_ne_nil {data : List ℝ} (h : 2 < (peaksOf data).length) :
    breathingDeltas data ≠ [] := by
  have hl := breathingDeltas_length data
  intro hnil
  rw [hnil] at hl
  simp at hl
  omega

theorem avgBreathingIntervalOf_pos {data : List ℝ} (h : 2 < (peaksOf data).length) :
    0 < avgBreathingIntervalOf data := by
  unfold avgBreathingIntervalOf
  have hsum : 0 < (breathingDeltas data).sum :=
    List.sum_pos _ (breathingDeltas_pos h) (breathingDeltas_ne_nil h)
  have hlen : 0 < (breathingDeltas data).length :=
    List.length_pos.2 (breathingDeltas_ne_nil h)
  exact div_pos hsum (by exact_mod_cast hlen)

/-! Branch evaluations of the two vital-sign computations. -/

theorem heartRateOf_default {sampleRate : ℝ} {data : List ℝ}
    (h : ¬ 1 < (peaksOf data).length) : heartRateOf sampleRate data = some 60 := by
  unfold heartRateOf
  rw [if_neg h, jround_some]
  norm_num

theorem heartRateOf_branch {sampleRate : ℝ} {data : List ℝ}
    (h : 1 < (peaksOf data).length) :
    heartRateOf sampleRate data =
      some ((⌊max 60 (min 120 (sampleRate / avgIntervalOf data * 60)) + 1 / 2⌋ : ℤ) : ℝ) := by
  unfold heartRateOf
  rw [if_pos h, jdiv_some_of_ne _ (ne_of_gt (avgIntervalOf_pos h)), jmul_some, jmin_some,
    jmax_some, jround_some]

theorem breathingRateOf_default {sampleRate : ℝ} {data : List ℝ}
    (h : ¬ 2 < (peaksOf data).length) : breathingRateOf sampleRate data = some 12 := by
  unfold breathingRateOf
  rw [if_neg h, jround_some]
  norm_num

theorem breathingRateOf_branch {sampleRate : ℝ} {data : List ℝ}
    (h : 2 < (peaksOf data).length) :
    breathingRateOf sampleRate data =
      some ((⌊max 8 (min 20 (sampleRate / avgBreathingIntervalOf data * 30)) + 1 / 2⌋ : ℤ) : ℝ) := by
  unfold breathingRateOf
  have hguard : 0 < (breathingDeltas data).length :=
    List.length_pos.2 (breathingDeltas_ne_nil h)
  rw [if_pos h, if_pos hguard,
    jdiv_some_of_ne _ (ne_of_gt (avgBreathingIntervalOf_pos h)), jmul_some, jmin_some,
    jmax_some, jround_some]

/-! Constant frames have no peaks: no sample strictly exceeds its equal
neighbor. -/

theorem peaksOf_replicate (n : ℕ) (c : ℝ) : peaksOf (List.replicate n c) = [] := by
  unfold peaksOf
  rw [List.filter_eq_nil_iff]
  intro i hi
  rw [List.length_replicate, List.mem_range'_1] at hi
  have hsi : sampleAt (List.replicate n c) i = c := by
    rw [sampleAt_replicate, if_pos (by omega)]
  have hsn : sampleAt (List.replicate n c) (i - 1) = c := by
    rw [sampleAt_replicate, if_pos (by omega)]
  unfold isPeak
  rw [hsi, hsn, jgt_some]
  simp

theorem peaksOf_nil : peaksOf ([] : List ℝ) = [] := rfl

theorem processAudioSignal_of_no_peaks {sampleRate : ℝ} {data : List ℝ}
    (h : peaksOf data = []) :
    processAudioSignal sampleRate data = (some 60, some 12) := by
  unfold processAudioSignal
  rw [heartRateOf_default (by rw [h]; simp), breathingRateOf_default (by rw [h]; simp)]

/-! The collected peak list coincides with the spec description: all interior
indices whose sample strictly exceeds 1.5 × RMS and both neighbors, in
increasing order. -/

theorem jrms_eq_specRms {data : List ℝ} (h : data ≠ []) :
    jrms data = some (specRms data) := by
  unfold jrms specRms
  have hlen : ((data.length : ℝ)) ≠ 0 := by
    have : 0 < data.length := List.length_pos.2 h
    positivity
  rw [jdiv_some_of_ne _ hlen,
    jsqrt_some_of_nonneg (div_nonneg (sumSq_nonneg data) (by positivity))]

theorem isPeak_iff {data : List ℝ} {i : ℕ} (h1 : 1 ≤ i) (h2 : i + 1 < data.length) :
    isPeak data i = true ↔ specIsPeak data i := by
  have hne : data ≠ [] := by
    intro hnil
    rw [hnil] at h2
    simp at h2
  unfold isPeak peakThreshold specIsPeak
  rw [jrms_eq_specRms hne, jmul_some, jgt_some, jgt_some, jgt_some,
    Bool.and_eq_true, Bool.and_eq_true, decide_eq_true_eq, decide_eq_true_eq,
    decide_eq_true_eq]
  constructor
  · rintro ⟨⟨ha, hb⟩, hc⟩
    exact ⟨h1, h2, by linarith [ha], hb, hc⟩
  · rintro ⟨-, -, ha, hb, hc⟩
    exact ⟨⟨by linarith [ha], hb⟩, hc⟩

theorem peaksOf_eq_specPeaks (data : List ℝ) : peaksOf data = specPeaks data := by
  unfold peaksOf specPeaks
  by_cases hlen : data.length < 3
  · have h2 : data.length - 2 = 0 := by omega
    rw [h2]
    show ([] : List ℕ) = _
    symm
    rw [List.filter_eq_nil_iff]
    intro i hi
    rw [List.mem_range] at hi
    rw [decide_eq_true_eq]
    rintro ⟨ha, hb, -⟩
    omega
  · have hd : data.length = (data.length - 1) + 1 := by omega
    have hd2 : data.length - 1 = (data.length - 2) + 1 := by omega
    have hsplit : List.range data.length =
        0 :: (List.range' 1 (data.length - 2) ++ [1 + 1 * (data.length - 2)]) := by
      rw [List.range_eq_range']
      conv_lhs => rw [hd]
      rw [List.range'_succ]
      conv_lhs => rw [hd2]
      rw [List.range'_concat]
    rw [hsplit]
    rw [List.filter_cons, List.filter_append]
    have h0 : (decide (specIsPeak data 0)) = false := by
      rw [decide_eq_false_iff_not]
      rintro ⟨ha, -⟩
      omega
    have hlast : List.filter (fun i => decide (specIsPeak data i)) [1 + 1 * (data.length - 2)] = [] := by
      rw [List.filter_eq_nil_iff]
      intro i hi
      rw [List.mem_singleton] at hi
      subst hi
      rw [decide_eq_true_eq]
      rintro ⟨-, hb, -⟩
      omega
    rw [h0, hlast]
    simp only [cond_false, List.append_nil]
    refine List.filter_congr ?_
    intro i hi
    rw [List.mem_range'_1] at hi
    by_cases hp : specIsPeak data i
    · rw [decide_eq_true hp]
      exact (isPeak_iff (by omega) (by omega)).2 hp
    · rw [decide_eq_false hp]
      rcases hb : isPeak data i with _ | _
      · rfl
      · exact absurd ((isPeak_iff (by omega) (by omega)).1 hb) hp

/-! The rounded vital-sign values agree with the spec formulas. -/

theorem heartRateOf_eq_spec (sampleRate : ℝ) (data : List ℝ) :
    heartRateOf sampleRate data = some (specHeartRate sampleRate data) := by
  unfold specHeartRate
  simp only [← peaksOf_eq_specPeaks]
  by_cases h : 1 < (peaksOf data).length
  · rw [if_neg (by omega), heartRateOf_branch h]
    unfold specClampRound avgIntervalOf
    rfl
  · rw [if_pos (by omega), heartRateOf_default h]

theorem breathingDeltas_eq_spec (data : List ℝ) :
    specBreathingDeltas data = breathingDeltas data := by
  unfold specBreathingDeltas breathingDeltas
  simp only [← peaksOf_eq_specPeaks]

theorem breathingRateOf_eq_spec (sampleRate : ℝ) (data : List ℝ) :
    breathingRateOf sampleRate data = some (specBreathingRate sampleRate data) := by
  unfold specBreathingRate
  rw [breathingDeltas_eq_spec]
  simp only [← peaksOf_eq_specPeaks]
  by_cases h : 2 < (peaksOf data).length
  · rw [if_neg (by omega), breathingRateOf_branch h]
    unfold specClampRound avgBreathingIntervalOf
    rfl
  · rw [if_pos (by omega), breathingRateOf_default h]

/-! The code centroid block agrees with the spec description of the
centroid. -/

theorem centroidOf_eq_spec (sampleRate : ℝ) (data : List ℝ) :
    centroidOf sampleRate data = specCentroid sampleRate data := by
  unfold centroidOf specCentroid
  by_cases h0 : 0 < data.length
  · rw [if_pos h0]
    by_cases hm : 0 < magSum data
    · rw [if_pos hm, if_neg (ne_of_gt hm)]
    · have hz : magSum data = 0 := le_antisymm (not_lt.1 hm) (magSum_nonneg data)
      rw [if_neg hm, if_pos hz]
  · rw [if_neg h0]
    have hnil : data = [] := List.length_eq_zero.1 (by omega)
    subst hnil
    rw [if_pos (by simp [magSum])]

/-! Concrete band-window arithmetic.  At the configured 44100 Hz rate, a
band whose width times the frame length stays below the Nyquist value 22050
gets an index window of length zero, and the unguarded division produces
NaN. -/

theorem bandWindowSize_eq_zero {n : ℕ} {f g : ℝ} (h0 : 0 ≤ (n : ℝ) * (g - f))
    (h : (n : ℝ) * (g - f) < 22050) : bandWindowSize 44100 n f g = 0 := by
  unfold bandWindowSize
  rw [Int.floor_eq_zero_iff, Set.mem_Ico]
  constructor
  · exact div_nonneg h0 (by norm_num)
  · rw [div_lt_one (by norm_num : (0 : ℝ) < 44100 / 2)]
    linarith

theorem bandScaled_windowZero {sampleRate : ℝ} {data : List ℝ} {f g : ℝ}
    (h : bandWindowSize sampleRate data.length f g = 0) :
    bandScaled (calculateBandPower sampleRate data f g) = none := by
  unfold bandScaled calculateBandPower
  rw [h, Int.cast_zero, jdiv_zero_divisor, jmul_none_left, jmin_none_right]

theorem sampleAt_zeroFrame (i : ℕ) : sampleAt zeroFrame i = 0 := by
  rw [zeroFrame, sampleAt_replicate]
  split <;> rfl

theorem zeroFrame_length : zeroFrame.length = 1024 := by
  rw [zeroFrame, List.length_replicate]

theorem gamma_zeroFrame : bandScaled (calculateBandPower 44100 zeroFrame 30 100) = some 0 := by
  have hws : bandWindowSize 44100 zeroFrame.length 30 100 = 3 := by
    unfold bandWindowSize
    rw [zeroFrame_length, Int.floor_eq_iff]
    push_cast
    norm_num
  have hsi : bandStartIdx 44100 zeroFrame.length 30 = 1 := by
    unfold bandStartIdx
    rw [zeroFrame_length, Int.floor_eq_iff]
    push_cast
    norm_num
  unfold bandScaled calculateBandPower bandPowerSum
  rw [hws, hsi]
  have hsum : ∀ l : List ℕ,
      ((l.map fun i => sampleAt zeroFrame i * sampleAt zeroFrame i).sum) = 0 := by
    intro l
    refine List.sum_eq_zero ?_
    intro x hx
    rw [List.mem_map] at hx
    obtain ⟨i, -, rfl⟩ := hx
    rw [sampleAt_zeroFrame]
    ring
  rw [hsum]
  rw [jdiv_some_of_ne _ (by norm_num)]
  norm_num

theorem bands_zeroFrame :
    generateEEGBands 44100 zeroFrame = ⟨none, none, none, none, some 0⟩ := by
  unfold generateEEGBands
  rw [gamma_zeroFrame,
    bandScaled_windowZero (bandWindowSize_eq_zero (by rw [zeroFrame_length]; norm_num)
      (by rw [zeroFrame_length]; norm_num)),
    bandScaled_windowZero (bandWindowSize_eq_zero (by rw [zeroFrame_length]; norm_num)
      (by rw [zeroFrame_length]; norm_num)),
    bandScaled_windowZero (bandWindowSize_eq_zero (by rw [zeroFrame_length]; norm_num)
      (by rw [zeroFrame_length]; norm_num)),
    bandScaled_windowZero (bandWindowSize_eq_zero (by rw [zeroFrame_length]; norm_num)
      (by rw [zeroFrame_length]; norm_num))]

theorem jrms_zeroFrame : jrms zeroFrame = some 0 := by
  unfold jrms
  rw [show sumSq zeroFrame = 0 by rw [zeroFrame]; exact sumSq_replicate_zero 1024]
  rw [show ((zeroFrame.length : ℝ)) = 1024 by rw [zeroFrame_length]; norm_num]
  rw [jdiv_some_of_ne _ (by norm_num), zero_div,
    jsqrt_some_of_nonneg le_rfl, Real.sqrt_zero]

theorem zcCount_replicate (n : ℕ) (c : ℝ) : zcCount (List.replicate n c) = 0 := by
  unfold zcCount
  rw [List.length_replicate]
  have h : (List.range' 1 (n - 1)).filter (fun i =>
      decide (0 ≤ sampleAt (List.replicate n c) i) !=
        decide (0 ≤ sampleAt (List.replicate n c) (i - 1))) = [] := by
    rw [List.filter_eq_nil_iff]
    intro i hi
    rw [List.mem_range'_1] at hi
    rw [sampleAt_replicate, sampleAt_replicate, if_pos (by omega), if_pos (by omega)]
    simp
  rw [h]
  rfl

theorem jzcr_zeroFrame : jzcr zeroFrame = some 0 := by
  unfold jzcr
  rw [show zcCount zeroFrame = 0 by rw [zeroFrame]; exact zcCount_replicate 1024 0]
  rw [show ((zeroFrame.length : ℝ)) = 1024 by rw [zeroFrame_length]; norm_num]
  rw [jdiv_some_of_ne _ (by norm_num)]
  norm_num

theorem centroid_zeroFrame : centroidOf 44100 zeroFrame = 1000 := by
  unfold centroidOf
  rw [if_pos (by rw [zeroFrame_length]; norm_num), if_neg]
  rw [show magSum zeroFrame = 0 by rw [zeroFrame]; exact magSum_replicate_zero 1024]
  norm_num

theorem emotion_zeroFrame :
    estimateEmotion 44100 zeroFrame =
      ⟨some (Real.tanh (-1)), some (Real.tanh (1 / 2)), some (Real.tanh 1)⟩ := by
  have hv1 : min 1 (-Real.tanh 1) = -Real.tanh 1 :=
    min_eq_right (by linarith [neg_one_lt_tanh 1])
  have hv2 : max (-1) (-Real.tanh 1) = -Real.tanh 1 :=
    max_eq_right (by linarith [tanh_lt_one 1])
  have ha1 : min 1 (Real.tanh (1 / 2)) = Real.tanh (1 / 2) := min_eq_right (tanh_lt_one _).le
  have ha2 : max 0 (Real.tanh (1 / 2)) = Real.tanh (1 / 2) :=
    max_eq_right (tanh_pos (by norm_num)).le
  have hd1 : min 1 (Real.tanh 1) = Real.tanh 1 := min_eq_right (tanh_lt_one _).le
  have hd2 : max 0 (Real.tanh 1) = Real.tanh 1 := max_eq_right (tanh_pos (by norm_num)).le
  unfold estimateEmotion jclamp
  rw [jrms_zeroFrame, jzcr_zeroFrame, centroid_zeroFrame]
  norm_num
  refine ⟨?_, ?_, ?_⟩
  · rw [hv1, hv2]
  · rw [ha1, ha2]
  · rw [hd1, hd2]

/-! Degenerate frames of length 0 and 1. -/

theorem vitals_nil (sampleRate : ℝ) :
    processAudioSignal sampleRate [] = (some 60, some 12) :=
  processAudioSignal_of_no_peaks rfl

theorem vitals_single (sampleRate v : ℝ) :
    processAudioSignal sampleRate [v] = (some 60, some 12) :=
  processAudioSignal_of_no_peaks rfl

theorem bands_nil : generateEEGBands 44100 [] = ⟨none, none, none, none, none⟩ := by
  unfold generateEEGBands
  rw [bandScaled_windowZero (bandWindowSize_eq_zero (by norm_num) (by norm_num)),
    bandScaled_windowZero (bandWindowSize_eq_zero (by norm_num) (by norm_num)),
    bandScaled_windowZero (bandWindowSize_eq_zero (by norm_num) (by norm_num)),
    bandScaled_windowZero (bandWindowSize_eq_zero (by norm_num) (by norm_num)),
    bandScaled_windowZero (bandWindowSize_eq_zero (by norm_num) (by norm_num))]

theorem bands_single (v : ℝ) :
    generateEEGBands 44100 [v] = ⟨none, none, none, none, none⟩ := by
  unfold generateEEGBands
  rw [bandScaled_windowZero (bandWindowSize_eq_zero (by norm_num) (by norm_num)),
    bandScaled_windowZero (bandWindowSize_eq_zero (by norm_num) (by norm_num)),
    bandScaled_windowZero (bandWindowSize_eq_zero (by norm_num) (by norm_num)),
    bandScaled_windowZero (bandWindowSize_eq_zero (by norm_num) (by norm_num)),
    bandScaled_windowZero (bandWindowSize_eq_zero (by norm_num) (by norm_num))]

theorem emotion_nil : estimateEmotion 44100 [] = ⟨none, none, none⟩ := by
  unfold estimateEmotion jrms jzcr jclamp
  simp [sumSq, zcCount, jdiv]

/-- C1: the claim states that every band power lies in the range 0 to 1 and
that a zero-length index window yields 0 power instead of a division by
zero.  The code has no such guard: `calculateBandPower` always divides by
`windowSize`.  At the 1024-sample all-zero frame with sample rate 44100 the
delta window has length 0 (the floor of 1024 × 3.5 / 22050), the power sum
is empty, and the published delta band value is NaN rather than 0 — the
code contradicts the documented invariant. -/
theorem C1_band_power_nan_on_zero_window :
    bandWindowSize 44100 zeroFrame.length 0.5 4 = 0 ∧
      (generateEEGBands 44100 zeroFrame).delta = none := by
  constructor
  · exact bandWindowSize_eq_zero (by rw [zeroFrame_length]; norm_num)
      (by rw [zeroFrame_length]; norm_num)
  · rw [bands_zeroFrame]

/-- C2 counterexample: on the 1024-zero frame the claim asserts arousal 0,
all band powers 0 and valence approximately 0.  The code computes arousal
tanh(0 + 1000/2000) = tanh(1/2) > 0, a NaN delta band power, and valence
tanh(-1) < -0.7, which is not approximately 0. -/
theorem C2_scenario1_refuted :
    (estimateEmotion 44100 zeroFrame).arousal ≠ some 0 ∧
      (generateEEGBands 44100 zeroFrame).delta ≠ some 0 ∧
      (estimateEmotion 44100 zeroFrame).valence = some (Real.tanh (-1)) ∧
      Real.tanh (-1) < -(0.7 : ℝ) := by
  refine ⟨?_, ?_, ?_, ?_⟩
  · rw [emotion_zeroFrame]
    intro h
    have h0 : Real.tanh (1 / 2) = 0 := Option.some.inj h
    have h1 : 0 < Real.tanh (1 / 2) := tanh_pos (by norm_num)
    linarith
  · rw [bands_zeroFrame]
    exact fun h => Option.noConfusion h
  · rw [emotion_zeroFrame]
  · rw [Real.tanh_neg]
    linarith [tanh_one_gt]

/-- C2 amended: on the 1024-zero frame at sample rate 44100 the pipeline
returns heart rate 60 and breathing rate 12; the gamma band power is 0 while
the four other bands are NaN (zero-length index windows, 0/0); valence is
tanh(-1) (about -0.76, not about 0), arousal is tanh(1/2) (about 0.46, not
0) and dominance is tanh(1) (about 0.76). -/
theorem C2_zero_frame_amended :
    processAudioSignal 44100 zeroFrame = (some 60, some 12) ∧
      generateEEGBands 44100 zeroFrame = ⟨none, none, none, none, some 0⟩ ∧
      estimateEmotion 44100 zeroFrame =
        ⟨some (Real.tanh (-1)), some (Real.tanh (1 / 2)), some (Real.tanh 1)⟩ :=
  ⟨processAudioSignal_of_no_peaks (by rw [zeroFrame]; exact peaksOf_replicate 1024 0),
    bands_zeroFrame, emotion_zeroFrame⟩

/-- C3: for every sample rate and every input frame (any length, any sample
values) the vital-signs estimator returns a finite heart rate in the range
60 to 120 and a finite breathing rate in the range 8 to 20. -/
theorem C3_vitals_in_range (sampleRate : ℝ) (data : List ℝ) :
    ∃ h b : ℝ, processAudioSignal sampleRate data = (some h, some b) ∧
      60 ≤ h ∧ h ≤ 120 ∧ 8 ≤ b ∧ b ≤ 20 := by
  have hh : ∃ h : ℝ, heartRateOf sampleRate data = some h ∧ 60 ≤ h ∧ h ≤ 120 := by
    by_cases h1 : 1 < (peaksOf data).length
    · exact ⟨_, heartRateOf_branch h1, (round_clamp_60_120 _).1, (round_clamp_60_120 _).2⟩
    · exact ⟨60, heartRateOf_default h1, by norm_num, by norm_num⟩
  have hb : ∃ b : ℝ, breathingRateOf sampleRate data = some b ∧ 8 ≤ b ∧ b ≤ 20 := by
    by_cases h2 : 2 < (peaksOf data).length
    · exact ⟨_, breathingRateOf_branch h2, (round_clamp_8_20 _).1, (round_clamp_8_20 _).2⟩
    · exact ⟨12, breathingRateOf_default h2, by norm_num, by norm_num⟩
  obtain ⟨h, hh1, hh2, hh3⟩ := hh
  obtain ⟨b, hb1, hb2, hb3⟩ := hb
  refine ⟨h, b, ?_, hh2, hh3, hb2, hb3⟩
  unfold processAudioSignal
  rw [hh1, hb1]

/-- C4: the collected peaks are exactly the interior indices whose sample
strictly exceeds 1.5 × RMS and strictly exceeds both neighbors, and the
heart rate is 60 below two peaks, else
(sampleRate / ((lastPeak - firstPeak) / (peakCount - 1))) × 60 clamped to
the range 60 to 120 and rounded. -/
theorem C4_peak_rule_and_heart_rate (sampleRate : ℝ) (data : List ℝ) :
    peaksOf data = specPeaks data ∧
      (processAudioSignal sampleRate data).1 = some (specHeartRate sampleRate data) :=
  ⟨peaksOf_eq_specPeaks data, heartRateOf_eq_spec sampleRate data⟩

/-- C5: the breathing rate is 12 below three peaks, else
(sampleRate / mean of the every-other-peak deltas) × 30 clamped to the
range 8 to 20 and rounded. -/
theorem C5_breathing_rate_formula (sampleRate : ℝ) (data : List ℝ) :
    (processAudioSignal sampleRate data).2 = some (specBreathingRate sampleRate data) :=
  breathingRateOf_eq_spec sampleRate data

/-- C6: the affect estimator computes rms, zero-crossing rate and the
magnitude-weighted spectral centroid (default 1000 when the total magnitude
is 0) and returns exactly the three clamped tanh formulas of the claim. -/
theorem C6_affect_formulas (sampleRate : ℝ) (data : List ℝ) :
    estimateEmotion sampleRate data = specEmotion sampleRate data := by
  unfold estimateEmotion specEmotion
  rw [centroidOf_eq_spec]

/-- C7: evaluation of the three estimators at the degenerate frames.  No
estimator crashes (each is total) and the vitals take their defaults 60 and
12, as the claim states; but on the empty frame every band power and every
emotion component is NaN (0/0 divisions), and on any one-sample frame every
band power is NaN — not the zero band powers and in-range emotion vector
the claim requires. -/
theorem C7_degenerate_frames_eval :
    processAudioSignal 44100 [] = (some 60, some 12) ∧
      generateEEGBands 44100 [] = ⟨none, none, none, none, none⟩ ∧
      estimateEmotion 44100 [] = ⟨none, none, none⟩ ∧
      ∀ v : ℝ, processAudioSignal 44100 [v] = (some 60, some 12) ∧
        generateEEGBands 44100 [v] = ⟨none, none, none, none, none⟩ :=
  ⟨vitals_nil _, bands_nil, emotion_nil, fun v => ⟨vitals_single _ v, bands_single v⟩⟩

/-- C9: each estimator is a deterministic pure function of its frame and
the sample rate read from the audio-context ref: a call leaves the ref
state unchanged, two states with the same effective sample rate give
identical outputs on the same frame, and a repeated call on the identical
frame returns the identical output. -/
theorem C9_estimators_pure (r r' : AudioRefs) (data : List ℝ)
    (h : effSampleRate r = effSampleRate r') :
    (processAudioSignalR r data).2 = r ∧ (generateEEGBandsR r data).2 = r ∧
      (estimateEmotionR r data).2 = r ∧
      (processAudioSignalR r data).1 = (processAudioSignalR r' data).1 ∧
      (generateEEGBandsR r data).1 = (generateEEGBandsR r' data).1 ∧
      (estimateEmotionR r data).1 = (estimateEmotionR r' data).1 ∧
      (processAudioSignalR (processAudioSignalR r data).2 data).1 =
        (processAudioSignalR r data).1 ∧
      (generateEEGBandsR (generateEEGBandsR r data).2 data).1 =
        (generateEEGBandsR r data).1 ∧
      (estimateEmotionR (estimateEmotionR r data).2 data).1 =
        (estimateEmotionR r data).1 := by
  refine ⟨rfl, rfl, rfl, ?_, ?_, ?_, rfl, rfl, rfl⟩ <;>
    simp [processAudioSignalR, generateEEGBandsR, estimateEmotionR, h]

/-- C9 witness: the purity theorem applied at the absent ref state and the
explicit 44100 state on the empty frame. -/
theorem C9_witness :
    effSampleRate ⟨none⟩ = effSampleRate ⟨some 44100⟩ ∧
      ((processAudioSignalR ⟨none⟩ []).2 = ⟨none⟩ ∧
        (generateEEGBandsR ⟨none⟩ []).2 = ⟨none⟩ ∧
        (estimateEmotionR ⟨none⟩ []).2 = ⟨none⟩ ∧
        (processAudioSignalR ⟨none⟩ []).1 = (processAudioSignalR ⟨some 44100⟩ []).1 ∧
        (generateEEGBandsR ⟨none⟩ []).1 = (generateEEGBandsR ⟨some 44100⟩ []).1 ∧
        (estimateEmotionR ⟨none⟩ []).1 = (estimateEmotionR ⟨some 44100⟩ []).1 ∧
        (processAudioSignalR (processAudioSignalR ⟨none⟩ []).2 []).1 =
          (processAudioSignalR ⟨none⟩ []).1 ∧
        (generateEEGBandsR (generateEEGBandsR ⟨none⟩ []).2 []).1 =
          (generateEEGBandsR ⟨none⟩ []).1 ∧
        (estimateEmotionR (estimateEmotionR ⟨none⟩ []).2 []).1 =
          (estimateEmotionR ⟨none⟩ []).1) :=
  ⟨by norm_num [effSampleRate, jsOrDefault],
    C9_estimators_pure ⟨none⟩ ⟨some 44100⟩ [] (by norm_num [effSampleRate, jsOrDefault])⟩

/-- C10: a constant frame has no peaks — no sample strictly exceeds its
equal neighbor — so the vitals estimator returns the defaults 60 and 12,
for every constant value, frame length and sample rate. -/
theorem C10_constant_frames (sampleRate c : ℝ) (n : ℕ) :
    peaksOf (List.replicate n c) = [] ∧
      processAudioSignal sampleRate (List.replicate n c) = (some 60, some 12) :=
  ⟨peaksOf_replicate n c, processAudioSignal_of_no_peaks (peaksOf_replicate n c)⟩

end BioPipe

end
